import Mathlib

/-!
Verification of the freshguard main-server orchestrator against its
natural-language specification.

The development shallowly embeds the weight state machine
(`app/core/state_machine.py`), the scan pipeline and its detection
filters (`app/core/orchestrator.py`), and the control-flow skeleton of
the manual `POST /trigger-scan` handler (`app/api/routes.py`).

Conventions of the embedding:
* Python floats (weights, confidences, thresholds, areas) are modelled
  as rationals `ℚ`; timestamps are modelled as rationals measured in
  milliseconds, so that `timedelta` arithmetic becomes subtraction.
* Fallible effectful calls (service clients, image cropping) are
  modelled as `Except`-valued oracles supplied in a `ScanEnv` record;
  `execute_scan` becomes a pure function from the oracle record to an
  observable outcome (publish calls attempted, assembled result,
  exception escaping the coroutine, error captured by the top-level
  handler).
-/

/-! ## Rational helpers mirroring Python builtins -/

/-- Python `max` on two values. -/
def qmax (a b : ℚ) : ℚ := if a ≤ b then b else a

/-- Python `min` on two values. -/
def qmin (a b : ℚ) : ℚ := if a ≤ b then a else b

/-- Python `abs`. -/
def qabs (a : ℚ) : ℚ := if a < 0 then -a else a

/-- Python `int(...)` applied to a real quantity: truncation toward zero. -/
def pyInt (q : ℚ) : ℤ := if 0 ≤ q then ⌊q⌋ else -⌊-q⌋

/-! ## Data model (`app/models/common.py`) -/

/-- `BoundingBox`: axis-aligned box in pixel coordinates. -/
structure BoundingBox where
  x_min : ℚ
  y_min : ℚ
  x_max : ℚ
  y_max : ℚ
deriving DecidableEq, Repr

/-- `FruitDetection`: one fruit detection from the fruit detector. -/
structure FruitDetection where
  fruit_id : String
  fruit_class : String
  confidence : ℚ
  bbox : BoundingBox
deriving DecidableEq, Repr

/-- `DefectInfo`: a single detected defect (segmentation mask elided). -/
structure DefectInfo where
  dtype : String
  confidence : ℚ
deriving DecidableEq, Repr

/-- `FruitSummary`: detection fields plus the defects found on the crop. -/
structure FruitSummary where
  fruit_id : String
  fruit_class : String
  confidence : ℚ
  bbox : BoundingBox
  defects : List DefectInfo
deriving DecidableEq, Repr

/-- `WeightReading`: one sample from the weight service.  The timestamp
is in milliseconds. -/
structure WeightReading where
  grams : ℚ
  timestamp : ℚ
deriving DecidableEq, Repr

/-- `ScanState` enum. -/
inductive ScanState
  | IDLE
  | ACTIVE
deriving DecidableEq, Repr

/-- The `transition` literal of `ScanDecision`. -/
inductive Transition
  | NONE
  | IDLE_TO_ACTIVE
  | ACTIVE_TO_IDLE
deriving DecidableEq, Repr

/-- `ScanDecision`: outcome of feeding one reading to the state machine. -/
structure ScanDecision where
  state : ScanState
  scan_requested : Bool
  transition : Transition
deriving DecidableEq, Repr

/-! ## Settings (`app/config.py`), restricted to the fields the
orchestrator core reads.  `fruit_class_thresholds` is an association
list standing for the Python dict. -/

structure Settings where
  min_fruit_weight : ℚ
  significant_delta : ℚ
  weight_noise_epsilon : ℚ
  stable_window_ms : ℚ
  min_scan_interval_ms : ℚ
  enable_main_server_publish : Bool
  fruit_detector_confidence_guard : ℚ
  fruit_detector_min_bbox_area_ratio : ℚ
  fruit_expected_weight_per_fruit : ℚ
  fruit_class_thresholds : List (String × ℚ)
deriving Repr

/-- The defaults declared in `app/config.py`. -/
def defaultSettings : Settings where
  min_fruit_weight := 30
  significant_delta := 20
  weight_noise_epsilon := 5
  stable_window_ms := 400
  min_scan_interval_ms := 2000
  enable_main_server_publish := false
  fruit_detector_confidence_guard := 3/10
  fruit_detector_min_bbox_area_ratio := 1/1000
  fruit_expected_weight_per_fruit := 100
  fruit_class_thresholds := [("apple", 11/20), ("banana", 2/5), ("tomato", 3/5)]

/-! ## Weight state machine (`app/core/state_machine.py`) -/

/-- Mutable state of `WeightStateMachine`: current state, the sliding
history window (oldest first, mirroring the deque), and the last-scan
registers. -/
structure SMState where
  state : ScanState
  history : List WeightReading
  last_scan_at : Option ℚ
  last_scan_weight : ℚ
deriving DecidableEq, Repr

/-- Fresh machine: `IDLE`, empty window, no previous scan, weight 0. -/
def SMState.init : SMState := ⟨ScanState.IDLE, [], none, 0⟩

/-- `_prune_history`: drop readings from the front while
`now - front.timestamp > stable_window_ms` (strict). -/
def pruneHistory (window now : ℚ) : List WeightReading → List WeightReading
  | [] => []
  | r :: rest =>
    if now - r.timestamp > window then pruneHistory window now rest
    else r :: rest

/-- `_stable_weight`: `none` when the window holds fewer than two
readings or its range exceeds `weight_noise_epsilon`; otherwise the
arithmetic mean (`fmean`). -/
def stableWeight (eps : ℚ) (hist : List WeightReading) : Option ℚ :=
  if hist.length < 2 then none
  else
    match hist.map WeightReading.grams with
    | [] => none
    | w :: ws =>
      if ws.foldl qmax w - ws.foldl qmin w > eps then none
      else some ((w :: ws).sum / ((w :: ws).length : ℚ))

/-- `_scan_interval_respected`: true when `last_scan_at` is null or the
elapsed milliseconds reach `min_scan_interval_ms`. -/
def scanIntervalRespected (s : Settings) (lastAt : Option ℚ) (now : ℚ) : Bool :=
  match lastAt with
  | none => true
  | some t => decide (s.min_scan_interval_ms ≤ now - t)

/-- Branch logic of `process` once a stable weight `w` is available;
`hist` is the already-pruned window stored in the next state.  Mirrors
`state_machine.py` lines 37-61, including `_mark_scan_if_allowed`. -/
def processStable (s : Settings) (st : SMState) (r : WeightReading)
    (hist : List WeightReading) (w : ℚ) : ScanDecision × SMState :=
  if st.state = ScanState.IDLE then
    if s.min_fruit_weight ≤ w then
      if scanIntervalRespected s st.last_scan_at r.timestamp then
        (⟨ScanState.ACTIVE, true, Transition.IDLE_TO_ACTIVE⟩,
         ⟨ScanState.ACTIVE, hist, some r.timestamp, w⟩)
      else
        (⟨ScanState.ACTIVE, false, Transition.IDLE_TO_ACTIVE⟩,
         ⟨ScanState.ACTIVE, hist, st.last_scan_at, st.last_scan_weight⟩)
    else
      (⟨st.state, false, Transition.NONE⟩, { st with history := hist })
  else
    if w < s.min_fruit_weight then
      (⟨ScanState.IDLE, false, Transition.ACTIVE_TO_IDLE⟩,
       ⟨ScanState.IDLE, hist, st.last_scan_at, st.last_scan_weight⟩)
    else if s.significant_delta ≤ qabs (w - st.last_scan_weight)
        ∧ scanIntervalRespected s st.last_scan_at r.timestamp = true then
      (⟨ScanState.ACTIVE, true, Transition.NONE⟩,
       ⟨ScanState.ACTIVE, hist, some r.timestamp, w⟩)
    else
      (⟨st.state, false, Transition.NONE⟩, { st with history := hist })

/-- `WeightStateMachine.process`: append the reading, prune the window,
compute the stable weight, and apply the transition logic. -/
def process (s : Settings) (st : SMState) (r : WeightReading) :
    ScanDecision × SMState :=
  match stableWeight s.weight_noise_epsilon
      (pruneHistory s.stable_window_ms r.timestamp (st.history ++ [r])) with
  | none =>
    (⟨st.state, false, Transition.NONE⟩,
     { st with history := pruneHistory s.stable_window_ms r.timestamp (st.history ++ [r]) })
  | some w =>
    processStable s st r
      (pruneHistory s.stable_window_ms r.timestamp (st.history ++ [r])) w

/-- Feed a list of readings through one machine, collecting the
decisions in order and the final state. -/
def runMachine (s : Settings) : SMState → List WeightReading →
    List ScanDecision × SMState
  | st, [] => ([], st)
  | st, r :: rs =>
    let p := process s st r
    let rest := runMachine s p.2 rs
    (p.1 :: rest.1, rest.2)

/-- Timestamps of the readings whose decision carried
`scan_requested = true`, in processing order. -/
def scanTimes (s : Settings) : SMState → List WeightReading → List ℚ
  | _, [] => []
  | st, r :: rs =>
    let p := process s st r
    (if p.1.scan_requested then [r.timestamp] else []) ++ scanTimes s p.2 rs

/-! ## Detection filters and fallback policy
(`app/core/orchestrator.py`, `BrainOrchestrator`) -/

/-- Area of a bounding box, `(x_max - x_min) * (y_max - y_min)`. -/
def bboxArea (b : BoundingBox) : ℚ := (b.x_max - b.x_min) * (b.y_max - b.y_min)

/-- `_filter_detections_by_bbox_area`: keep detections whose bbox area
reaches `image_area * fruit_detector_min_bbox_area_ratio`. -/
def filterDetectionsByBboxArea (s : Settings) (imageArea : ℚ)
    (dets : List FruitDetection) : List FruitDetection :=
  dets.filter (fun d => imageArea * s.fruit_detector_min_bbox_area_ratio ≤ bboxArea d.bbox)

/-- Per-class confidence threshold: the `fruit_class_thresholds` entry
for the class, else `fruit_detector_confidence_guard`. -/
def classThreshold (s : Settings) (c : String) : ℚ :=
  match s.fruit_class_thresholds.lookup c with
  | some t => t
  | none => s.fruit_detector_confidence_guard

/-- `_filter_detections_by_class_threshold`: keep detections whose
confidence reaches their class threshold. -/
def filterDetectionsByClassThreshold (s : Settings)
    (dets : List FruitDetection) : List FruitDetection :=
  dets.filter (fun d => classThreshold s d.fruit_class ≤ d.confidence)

/-- Filter A (bbox area) then Filter B (class confidence), as the
pipeline applies them to a raw detector response. -/
def applyFilters (s : Settings) (imageArea : ℚ)
    (dets : List FruitDetection) : List FruitDetection :=
  filterDetectionsByClassThreshold s (filterDetectionsByBboxArea s imageArea dets)

/-- `_should_fallback`: the three ordered conditions; the first that
matches yields its reason. -/
def shouldFallback (s : Settings) (dets raw : List FruitDetection)
    (w : ℚ) : Option String :=
  if s.min_fruit_weight ≤ w ∧ dets = [] then
    some "weight_indicates_fruit_but_no_detections"
  else if raw ≠ [] ∧ ∀ d ∈ raw, d.confidence < s.fruit_detector_confidence_guard then
    some "all_detections_below_confidence_guard"
  else if s.min_fruit_weight ≤ w ∧ 0 < s.fruit_expected_weight_per_fruit then
    if 2 ≤ pyInt (w / s.fruit_expected_weight_per_fruit)
        ∧ (dets.length : ℤ) < pyInt (w / s.fruit_expected_weight_per_fruit) - 1 then
      some "expected_more_fruits_by_weight"
    else none
  else none

/-- The fallback rule as the specification words it: same first two
conditions, third condition `weight ≥ min ∧ ⌊weight/per_fruit⌋ ≥ 2 ∧
|filtered| < expected - 1`, first match wins. -/
def shouldFallbackSpec (s : Settings) (dets raw : List FruitDetection)
    (w : ℚ) : Option String :=
  if s.min_fruit_weight ≤ w ∧ dets = [] then
    some "weight_indicates_fruit_but_no_detections"
  else if raw ≠ [] ∧ ∀ d ∈ raw, d.confidence < s.fruit_detector_confidence_guard then
    some "all_detections_below_confidence_guard"
  else if s.min_fruit_weight ≤ w ∧ 2 ≤ ⌊w / s.fruit_expected_weight_per_fruit⌋
      ∧ (dets.length : ℤ) < ⌊w / s.fruit_expected_weight_per_fruit⌋ - 1 then
    some "expected_more_fruits_by_weight"
  else none

/-! ## Scan pipeline (`BrainOrchestrator.execute_scan` and
`_analyze_fruits`)

The network and CPU effects are supplied as `Except`-valued oracles: a
`.error` value means that call raises when awaited.  The observable
outcome records which publish calls were performed, the assembled
`ScanResult` (if the pipeline reached assembly), the exception escaping
`execute_scan` (always none: the body is wrapped in a blanket
`try/except`), and the error the top-level handler logged. -/

/-- Transport or processing error, carried by a raised exception. -/
abbrev Err := String

/-- Oracles for one `execute_scan` invocation. -/
structure ScanEnv where
  captureResult : Except Err Unit
  fetchResult : Except Err Unit
  imageArea : ℚ
  primaryResult : Except Err (List FruitDetection)
  fallbackResult : Except Err (List FruitDetection)
  cropResult : FruitDetection → Except Err Unit
  defectResult : FruitDetection → Except Err (List DefectInfo)
  uiResult : Except Err Unit
  mainResult : Except Err Unit

/-- The fields of a published `ScanResult` that the claims constrain. -/
structure ScanResultModel where
  weight_grams : ℚ
  fruits : List FruitSummary
deriving DecidableEq, Repr

/-- A downstream publish destination. -/
inductive PublishTarget
  | ui
  | mainServer
deriving DecidableEq, Repr

/-- Observable outcome of one `execute_scan` invocation. -/
structure ScanOutcome where
  attempted : List PublishTarget
  result : Option ScanResultModel
  raised : Option Err
  loggedError : Option Err
deriving DecidableEq, Repr

/-- Defects attached to one fruit: the defect-detector result, or an
empty list when that call raises (`orchestrator.py` lines 226-228). -/
def summaryDefects (env : ScanEnv) (d : FruitDetection) : List DefectInfo :=
  match env.defectResult d with
  | Except.ok defs => defs
  | Except.error _ => []

/-- Build the `FruitSummary` for a detection. -/
def mkSummary (d : FruitDetection) (defs : List DefectInfo) : FruitSummary :=
  ⟨d.fruit_id, d.fruit_class, d.confidence, d.bbox, defs⟩

/-- One `analyze_detection` task: the crop runs before the `try`, so a
crop failure makes the whole task fail; a defect-detector failure is
caught inside and yields empty defects. -/
def analyzeDetection (env : ScanEnv) (d : FruitDetection) :
    Except Err FruitSummary :=
  match env.cropResult d with
  | Except.error e => Except.error e
  | Except.ok _ => Except.ok (mkSummary d (summaryDefects env d))

/-- `_analyze_fruits`: gather the per-detection tasks in task order;
results that are exceptions are logged and skipped
(`orchestrator.py` lines 241-246). -/
def analyzeFruits (env : ScanEnv) (dets : List FruitDetection) :
    List FruitSummary :=
  dets.filterMap (fun d =>
    match analyzeDetection env d with
    | Except.ok fs => some fs
    | Except.error _ => none)

/-- Publish destinations of the publish step: always the UI client,
plus the main-server client when `enable_main_server_publish` is set.
Both tasks are scheduled by `asyncio.gather`, so each call is performed
whatever the other's outcome. -/
def publishTargets (s : Settings) : List PublishTarget :=
  PublishTarget.ui ::
    (if s.enable_main_server_publish then [PublishTarget.mainServer] else [])

/-- The first publish failure, in task order: this is the exception
`asyncio.gather` propagates into the pipeline's blanket handler, which
logs it. -/
def publishFirstError (s : Settings) (env : ScanEnv) : Option Err :=
  match env.uiResult with
  | Except.error e => some e
  | Except.ok _ =>
    if s.enable_main_server_publish then
      match env.mainResult with
      | Except.error e => some e
      | Except.ok _ => none
    else none

/-- Steps 9-11 once a final detection list is fixed: defect fan-out,
result assembly, and the concurrent publishes. -/
def finishScan (s : Settings) (env : ScanEnv) (w : ℚ)
    (dets : List FruitDetection) : ScanOutcome where
  attempted := publishTargets s
  result := some ⟨w, analyzeFruits env dets⟩
  raised := none
  loggedError := publishFirstError s env

/-- `execute_scan`: capture, fetch, primary detection, Filters A and B,
fallback decision and (when indicated) fallback detection with the same
filters replacing the primary set, defect fan-out, publish.  Every
failure path is absorbed by the blanket `except`, so `raised` is never
set. -/
def executeScan (s : Settings) (env : ScanEnv) (w : ℚ) : ScanOutcome :=
  match env.captureResult with
  | Except.error e => ⟨[], none, none, some e⟩
  | Except.ok _ =>
    match env.fetchResult with
    | Except.error e => ⟨[], none, none, some e⟩
    | Except.ok _ =>
      match env.primaryResult with
      | Except.error e => ⟨[], none, none, some e⟩
      | Except.ok raw =>
        match shouldFallback s (applyFilters s env.imageArea raw) raw w with
        | some _ =>
          match env.fallbackResult with
          | Except.error e => ⟨[], none, none, some e⟩
          | Except.ok rawFb => finishScan s env w (applyFilters s env.imageArea rawFb)
        | none => finishScan s env w (applyFilters s env.imageArea raw)

/-! ## Manual trigger handler (`app/api/routes.py`, `trigger_scan`)

The handler builds a `WeightReading` and then executes
`await orchestrator.execute_scan(reading)` before producing the
`{"status": "accepted"}` response, so its control flow is the event
sequence below: the pipeline invocation it starts runs to completion
before the response is returned. -/

/-- Events of one `POST /trigger-scan` request, in handler order. -/
inductive HandlerEvent
  | scanStarted
  | scanCompleted
  | responded
deriving DecidableEq, Repr

/-- Control-flow trace of the handler as written in `routes.py`
lines 26-33: the `await` completes the scan before the return. -/
def triggerScanTrace : List HandlerEvent :=
  [HandlerEvent.scanStarted, HandlerEvent.scanCompleted, HandlerEvent.responded]

/-- Position of an event in the handler trace. -/
def eventIndex (e : HandlerEvent) : ℕ := triggerScanTrace.indexOf e

/-! ## Helper lemmas about the state machine -/

/-- A decision that requests a scan was admitted by the interval check,
and latches `last_scan_at` to the reading's timestamp. -/
lemma processStable_scan_true (s : Settings) (st : SMState) (r : WeightReading)
    (hist : List WeightReading) (w : ℚ)
    (h : (processStable s st r hist w).1.scan_requested = true) :
    scanIntervalRespected s st.last_scan_at r.timestamp = true ∧
      (processStable s st r hist w).2.last_scan_at = some r.timestamp := by
  unfold processStable at h ⊢
  split_ifs at h ⊢ with h1 h2 h3 h4 h5 <;>
    first
      | exact ⟨h3, rfl⟩
      | exact ⟨h5.2, rfl⟩
      | simp_all

/-- A decision that does not request a scan leaves both last-scan
registers untouched. -/
lemma processStable_scan_false (s : Settings) (st : SMState) (r : WeightReading)
    (hist : List WeightReading) (w : ℚ)
    (h : (processStable s st r hist w).1.scan_requested = false) :
    (processStable s st r hist w).2.last_scan_at = st.last_scan_at ∧
      (processStable s st r hist w).2.last_scan_weight = st.last_scan_weight := by
  unfold processStable at h ⊢
  split_ifs at h ⊢ <;> first | exact ⟨rfl, rfl⟩ | simp_all

/-- Lifting `processStable_scan_true` through `process`. -/
lemma process_scan_true (s : Settings) (st : SMState) (r : WeightReading)
    (h : (process s st r).1.scan_requested = true) :
    scanIntervalRespected s st.last_scan_at r.timestamp = true ∧
      (process s st r).2.last_scan_at = some r.timestamp := by
  unfold process at h ⊢
  cases hsw : stableWeight s.weight_noise_epsilon
      (pruneHistory s.stable_window_ms r.timestamp (st.history ++ [r])) with
  | none => rw [hsw] at h; exact Bool.noConfusion h
  | some w => rw [hsw] at h; exact processStable_scan_true s st r _ w h

/-- Lifting `processStable_scan_false` through `process`. -/
lemma process_scan_false (s : Settings) (st : SMState) (r : WeightReading)
    (h : (process s st r).1.scan_requested = false) :
    (process s st r).2.last_scan_at = st.last_scan_at ∧
      (process s st r).2.last_scan_weight = st.last_scan_weight := by
  unfold process at h ⊢
  cases hsw : stableWeight s.weight_noise_epsilon
      (pruneHistory s.stable_window_ms r.timestamp (st.history ++ [r])) with
  | none => exact ⟨rfl, rfl⟩
  | some w => rw [hsw] at h; exact processStable_scan_false s st r _ w h

/-- When a scan fires while a previous scan is on record, the elapsed
milliseconds reach the configured minimum. -/
lemma scanIntervalRespected_elapsed (s : Settings) (t now : ℚ)
    (h : scanIntervalRespected s (some t) now = true) :
    s.min_scan_interval_ms ≤ now - t := by
  unfold scanIntervalRespected at h
  exact of_decide_eq_true h

/-- Core invariant behind the minimum-interval guarantee: the scan
timestamps emitted from any starting state are spaced by at least
`min_scan_interval_ms`, and when the state already records a last scan
the first emitted timestamp respects the interval from it. -/
lemma scanTimes_chain (s : Settings) :
    ∀ (rs : List WeightReading) (st : SMState),
      List.Chain' (fun t1 t2 => s.min_scan_interval_ms ≤ t2 - t1) (scanTimes s st rs) ∧
      (∀ t1 t2, st.last_scan_at = some t1 →
        (scanTimes s st rs).head? = some t2 → s.min_scan_interval_ms ≤ t2 - t1)
  | [], _ => by
    constructor
    · exact List.chain'_nil
    · intro t1 t2 _ hh
      simp [scanTimes] at hh
  | r :: rs, st => by
    have IH := scanTimes_chain s rs (process s st r).2
    by_cases hreq : (process s st r).1.scan_requested = true
    · have hstep := process_scan_true s st r hreq
      have hlist : scanTimes s st (r :: rs) =
          r.timestamp :: scanTimes s (process s st r).2 rs := by
        simp [scanTimes, hreq]
      constructor
      · rw [hlist]
        refine List.chain'_cons'.mpr ⟨?_, IH.1⟩
        intro t2 ht2
        exact IH.2 r.timestamp t2 hstep.2 ht2
      · intro t1 t2 hl hh
        rw [hlist] at hh
        simp only [List.head?_cons, Option.some.injEq] at hh
        subst hh
        rw [hl] at hstep
        exact scanIntervalRespected_elapsed s t1 r.timestamp hstep.1
    · have hreq' : (process s st r).1.scan_requested = false :=
        Bool.not_eq_true _ ▸ Bool.of_not_eq_true hreq
      have hstep := process_scan_false s st r hreq'
      have hlist : scanTimes s st (r :: rs) =
          scanTimes s (process s st r).2 rs := by
        simp [scanTimes, hreq']
      constructor
      · rw [hlist]; exact IH.1
      · intro t1 t2 hl hh
        rw [hlist] at hh
        exact IH.2 t1 t2 (hstep.1.trans hl) hh

/-! ## Helper lemmas about the pipeline -/

/-- Filters A and B composed are a sublist of their input. -/
lemma applyFilters_sublist (s : Settings) (area : ℚ) (l : List FruitDetection) :
    (applyFilters s area l).Sublist l :=
  (List.filter_sublist _).trans (List.filter_sublist _)

/-- When all four network steps succeed, `execute_scan` runs the
defect fan-out and publish step on the fallback-or-primary filtered
set. -/
lemma executeScan_reaches_publish (s : Settings) (env : ScanEnv) (w : ℚ)
    (raw rawFb : List FruitDetection)
    (hc : env.captureResult = Except.ok ()) (hf : env.fetchResult = Except.ok ())
    (hp : env.primaryResult = Except.ok raw)
    (hfb : env.fallbackResult = Except.ok rawFb) :
    executeScan s env w = finishScan s env w (applyFilters s env.imageArea
      (match shouldFallback s (applyFilters s env.imageArea raw) raw w with
       | some _ => rawFb
       | none => raw)) := by
  unfold executeScan
  simp only [hc, hf, hp]
  cases hsf : shouldFallback s (applyFilters s env.imageArea raw) raw w with
  | some r => simp only [hfb]
  | none => rfl

/-- When every crop succeeds, the fan-out yields one summary per
detection, in order. -/
lemma analyzeFruits_all_ok (env : ScanEnv) :
    ∀ dets : List FruitDetection,
      (∀ d ∈ dets, env.cropResult d = Except.ok ()) →
      analyzeFruits env dets = dets.map (fun d => mkSummary d (summaryDefects env d))
  | [], _ => rfl
  | d :: ds, h => by
    have hd := h d (List.mem_cons_self d ds)
    have ih := analyzeFruits_all_ok env ds (fun x hx => h x (List.mem_cons_of_mem d hx))
    unfold analyzeFruits at ih ⊢
    simp only [analyzeDetection] at ih ⊢
    simp only [List.filterMap_cons, hd, ih, List.map_cons]

/-! ## Concrete inputs used by witnesses and counterexamples -/

/-- A confident apple detection with a 60x60 box. -/
def sampleDet : FruitDetection := ⟨"fruit-1", "apple", 19/20, ⟨0, 0, 60, 60⟩⟩

/-- A scan whose per-fruit crop computation raises. -/
def cropFailEnv : ScanEnv where
  captureResult := Except.ok ()
  fetchResult := Except.ok ()
  imageArea := 16384
  primaryResult := Except.ok [sampleDet]
  fallbackResult := Except.ok []
  cropResult := fun _ => Except.error "crop failed"
  defectResult := fun _ => Except.ok []
  uiResult := Except.ok ()
  mainResult := Except.ok ()

/-- A scan whose defect-detector call raises but whose crops succeed. -/
def defectFailEnv : ScanEnv :=
  { cropFailEnv with
      cropResult := fun _ => Except.ok ()
      defectResult := fun _ => Except.error "defect service down" }

/-- A scan whose primary detection is empty at weight 120 g, forcing
the fallback, and whose fallback detection succeeds. -/
def fallbackEnv : ScanEnv :=
  { defectFailEnv with
      primaryResult := Except.ok []
      fallbackResult := Except.ok [sampleDet]
      defectResult := fun _ => Except.ok [] }

/-- A scan whose camera capture raises. -/
def captureFailEnv : ScanEnv :=
  { fallbackEnv with captureResult := Except.error "camera unreachable" }

/-! ## Claims -/

/-- Claim C1, counterexample: in the handler's control-flow trace the
accepted response is produced strictly after the scan pipeline
invocation completes, not before it — `trigger_scan` awaits
`execute_scan`. -/
theorem trigger_scan_awaits_counterexample :
    eventIndex HandlerEvent.responded = 2 ∧
    eventIndex HandlerEvent.scanCompleted = 1 ∧
    ¬ eventIndex HandlerEvent.responded < eventIndex HandlerEvent.scanCompleted := by
  decide

/-- Claim C1 (amended): for every valid request body the handler
returns the accepted status only after the `execute_scan` invocation it
started has completed, because it awaits that invocation. -/
theorem trigger_scan_responds_after_completion :
    eventIndex HandlerEvent.scanCompleted < eventIndex HandlerEvent.responded := by
  decide

/-- Claim C4: `_should_fallback` evaluates its three conditions in
order and returns the first matching reason, agreeing with the
specification's wording (for the validated configuration range
`fruit_expected_weight_per_fruit > 0` and a non-negative weight, where
Python's `int()` truncation coincides with the floor). -/
theorem should_fallback_first_match (s : Settings) (dets raw : List FruitDetection)
    (w : ℚ) (hper : 0 < s.fruit_expected_weight_per_fruit) (hw : 0 ≤ w) :
    shouldFallback s dets raw w = shouldFallbackSpec s dets raw w := by
  have hfloor : pyInt (w / s.fruit_expected_weight_per_fruit) =
      ⌊w / s.fruit_expected_weight_per_fruit⌋ := by
    unfold pyInt
    rw [if_pos (div_nonneg hw hper.le)]
  unfold shouldFallback shouldFallbackSpec
  rw [hfloor]
  split_ifs <;> first | rfl | tauto

/-- Witness for C4 at a concrete input: weight 250 g with no
detections triggers the first reason on both formulations. -/
theorem should_fallback_first_match_witness :
    shouldFallback defaultSettings [] [] 250 = shouldFallbackSpec defaultSettings [] [] 250 :=
  should_fallback_first_match defaultSettings [] [] 250
    (by norm_num [defaultSettings]) (by norm_num)

/-- Claim C8, counterexample: with the default configuration the
readings (0 g, t=0), (35 g, t=200), (35 g, t=300) produce three
decisions that all stay `IDLE` with no scan request — the 0 g reading
is still inside the 400 ms stability window at t=300, so stability
never holds within this sequence and no `IDLE→ACTIVE, scan_requested`
decision occurs in it. -/
theorem cold_start_scenario_counterexample :
    (runMachine defaultSettings SMState.init [⟨0, 0⟩, ⟨35, 200⟩, ⟨35, 300⟩]).1 =
      [⟨ScanState.IDLE, false, Transition.NONE⟩,
       ⟨ScanState.IDLE, false, Transition.NONE⟩,
       ⟨ScanState.IDLE, false, Transition.NONE⟩] := by
  norm_num [runMachine, process, processStable, stableWeight, pruneHistory,
    scanIntervalRespected, qmax, qmin, SMState.init, defaultSettings]

/-- Claim C8 (amended): the first decision is `IDLE, no scan, NONE`;
the 35 g plateau only becomes stable once the 0 g reading leaves the
400 ms window, so a further stable reading (35 g at t=450) yields the
expected `ACTIVE, scan_requested, IDLE→ACTIVE` decision. -/
theorem cold_start_scenario_amended :
    (runMachine defaultSettings SMState.init
        [⟨0, 0⟩, ⟨35, 200⟩, ⟨35, 300⟩, ⟨35, 450⟩]).1 =
      [⟨ScanState.IDLE, false, Transition.NONE⟩,
       ⟨ScanState.IDLE, false, Transition.NONE⟩,
       ⟨ScanState.IDLE, false, Transition.NONE⟩,
       ⟨ScanState.ACTIVE, true, Transition.IDLE_TO_ACTIVE⟩] := by
  norm_num [runMachine, process, processStable, stableWeight, pruneHistory,
    scanIntervalRespected, qmax, qmin, SMState.init, defaultSettings]

/-- Claim C10: both detection filters return order-preserving sublists
of their input — every element of the output is an element of the
input, kept unmodified, without duplication, in the input's relative
order. -/
theorem detection_filters_sublists (s : Settings) (imageArea : ℚ)
    (dets : List FruitDetection) :
    (filterDetectionsByBboxArea s imageArea dets).Sublist dets ∧
    (filterDetectionsByClassThreshold s dets).Sublist dets :=
  ⟨List.filter_sublist dets, List.filter_sublist dets⟩

/-- Claim C2: over any reading sequence with non-decreasing timestamps
fed to one fresh machine, consecutive `scan_requested` decisions are at
least `min_scan_interval_ms` apart; and a scan is only ever requested
when `last_scan_at` is null or at least `min_scan_interval_ms` older
than the reading's timestamp. -/
theorem scan_requests_respect_min_interval (s : Settings) (rs : List WeightReading)
    (_hmono : List.Chain' (fun a b => a.timestamp ≤ b.timestamp) rs) :
    List.Chain' (fun t1 t2 => s.min_scan_interval_ms ≤ t2 - t1)
      (scanTimes s SMState.init rs) ∧
    ∀ (st : SMState) (r : WeightReading),
      (process s st r).1.scan_requested = true →
      st.last_scan_at = none ∨
        ∃ t, st.last_scan_at = some t ∧ s.min_scan_interval_ms ≤ r.timestamp - t := by
  refine ⟨(scanTimes_chain s rs SMState.init).1, ?_⟩
  intro st r h
  have hstep := (process_scan_true s st r h).1
  cases hl : st.last_scan_at with
  | none => exact Or.inl rfl
  | some t =>
    refine Or.inr ⟨t, rfl, ?_⟩
    rw [hl] at hstep
    exact scanIntervalRespected_elapsed s t r.timestamp hstep

/-- Witness for C2 on a concrete monotone run that requests one scan. -/
theorem scan_requests_respect_min_interval_witness :
    List.Chain' (fun t1 t2 => defaultSettings.min_scan_interval_ms ≤ t2 - t1)
      (scanTimes defaultSettings SMState.init [⟨35, 0⟩, ⟨35, 100⟩]) :=
  (scan_requests_respect_min_interval defaultSettings [⟨35, 0⟩, ⟨35, 100⟩]
    (by norm_num [List.chain'_cons, List.chain'_singleton])).1

/-- Claim C9 (amended): a step producing `ACTIVE→IDLE` leaves
`last_scan_weight` and `last_scan_at` unchanged; a step producing
`IDLE→ACTIVE` re-latches both registers to that step's stable weight
and timestamp when the minimum scan interval is respected at that step,
and leaves both unchanged when it is not. -/
theorem transition_register_effects (s : Settings) (st : SMState)
    (r : WeightReading) (w : ℚ)
    (hw : stableWeight s.weight_noise_epsilon
      (pruneHistory s.stable_window_ms r.timestamp (st.history ++ [r])) = some w) :
    ((process s st r).1.transition = Transition.ACTIVE_TO_IDLE →
      (process s st r).2.last_scan_weight = st.last_scan_weight ∧
      (process s st r).2.last_scan_at = st.last_scan_at) ∧
    ((process s st r).1.transition = Transition.IDLE_TO_ACTIVE →
      (scanIntervalRespected s st.last_scan_at r.timestamp = true →
        (process s st r).2.last_scan_weight = w ∧
        (process s st r).2.last_scan_at = some r.timestamp) ∧
      (scanIntervalRespected s st.last_scan_at r.timestamp = false →
        (process s st r).2.last_scan_weight = st.last_scan_weight ∧
        (process s st r).2.last_scan_at = st.last_scan_at)) := by
  unfold process
  simp only [hw]
  unfold processStable
  split_ifs <;> simp_all

/-- The two machine states are distinct (used to evaluate the state
dispatch on concrete runs). -/
lemma scanState_active_ne_idle : ScanState.ACTIVE ≠ ScanState.IDLE :=
  fun h => ScanState.noConfusion h

/-- The reading prefix driving the C9 counterexample: a scan latches
35 g at t=100, the platform empties (`ACTIVE→IDLE`), and an 80 g load
returns before the 2000 ms interval has elapsed. -/
def relatchPrefix : List WeightReading :=
  [⟨35, 0⟩, ⟨35, 100⟩, ⟨0, 600⟩, ⟨0, 700⟩, ⟨80, 1100⟩]

/-- Machine state after the C9 prefix. -/
def relatchState : SMState :=
  (runMachine defaultSettings SMState.init relatchPrefix).2

/-- The reading that produces the early `IDLE→ACTIVE` transition. -/
def relatchReading : WeightReading := ⟨80, 1200⟩

/-- Claim C9, counterexample: the next `IDLE→ACTIVE` transition after
an `ACTIVE→IDLE` does NOT always re-latch `last_scan_weight`: here the
step's stable weight is 80 g but the interval check fails
(1200 − 100 < 2000 ms), so `last_scan_weight` stays 35 g. -/
theorem relatch_counterexample :
    (process defaultSettings relatchState relatchReading).1.transition =
      Transition.IDLE_TO_ACTIVE ∧
    stableWeight defaultSettings.weight_noise_epsilon
      (pruneHistory defaultSettings.stable_window_ms relatchReading.timestamp
        (relatchState.history ++ [relatchReading])) = some 80 ∧
    (process defaultSettings relatchState relatchReading).2.last_scan_weight = 35 ∧
    (35 : ℚ) ≠ 80 := by
  norm_num [relatchState, relatchPrefix, relatchReading, runMachine, process,
    processStable, stableWeight, pruneHistory, scanIntervalRespected, qmax, qmin,
    qabs, SMState.init, defaultSettings, scanState_active_ne_idle]

/-- Witness for C9 (amended) at the counterexample input: the
`IDLE→ACTIVE` step with the interval not respected leaves both
registers unchanged. -/
theorem transition_register_effects_witness :
    (process defaultSettings relatchState relatchReading).2.last_scan_weight =
      relatchState.last_scan_weight ∧
    (process defaultSettings relatchState relatchReading).2.last_scan_at =
      relatchState.last_scan_at :=
  ((transition_register_effects defaultSettings relatchState relatchReading 80
      (by norm_num [relatchState, relatchPrefix, relatchReading, runMachine, process,
        processStable, stableWeight, pruneHistory, scanIntervalRespected, qmax, qmin,
        qabs, SMState.init, defaultSettings, scanState_active_ne_idle])).2
    (by norm_num [relatchState, relatchPrefix, relatchReading, runMachine, process,
        processStable, stableWeight, pruneHistory, scanIntervalRespected, qmax, qmin,
        qabs, SMState.init, defaultSettings, scanState_active_ne_idle])).2
    (by norm_num [relatchState, relatchPrefix, relatchReading, runMachine, process,
        processStable, stableWeight, pruneHistory, scanIntervalRespected, qmax, qmin,
        qabs, SMState.init, defaultSettings, scanState_active_ne_idle])

/-- Claim C5, counterexample: a failing crop computation does NOT yield
a `FruitSummary` with empty defects — the per-fruit task fails before
entering the guarded defect call, and the gather loop skips failed
tasks, so the one detection produces zero summaries. -/
theorem fruit_failure_isolation_counterexample :
    analyzeFruits cropFailEnv [sampleDet] = [] ∧ [sampleDet].length = 1 :=
  ⟨rfl, rfl⟩

/-- Claim C5 (amended): the scan is never aborted by a per-fruit
failure; a fruit whose crop succeeds always yields its summary, a
failing defect-detector call yields an empty defects list for that
fruit, and when every crop succeeds all n detections keep a summary.  A
fruit whose crop computation fails is dropped from the result. -/
theorem fruit_failure_isolation (env : ScanEnv) (dets : List FruitDetection)
    (d : FruitDetection) (hmem : d ∈ dets)
    (hcrop : env.cropResult d = Except.ok ()) :
    mkSummary d (summaryDefects env d) ∈ analyzeFruits env dets ∧
    (∀ e, env.defectResult d = Except.error e → summaryDefects env d = []) ∧
    ((∀ x ∈ dets, env.cropResult x = Except.ok ()) →
      (analyzeFruits env dets).length = dets.length) := by
  refine ⟨?_, ?_, ?_⟩
  · refine List.mem_filterMap.mpr ⟨d, hmem, ?_⟩
    unfold analyzeDetection
    rw [hcrop]
  · intro e he
    unfold summaryDefects
    rw [he]
  · intro hall
    rw [analyzeFruits_all_ok env dets hall, List.length_map]

/-- Witness for C5 (amended): with a failing defect detector, the
single detection still yields its summary (whose defects are empty). -/
theorem fruit_failure_isolation_witness :
    mkSummary sampleDet (summaryDefects defectFailEnv sampleDet) ∈
      analyzeFruits defectFailEnv [sampleDet] :=
  (fruit_failure_isolation defectFailEnv [sampleDet] sampleDet
    (List.mem_singleton_self _) rfl).1

/-- Claim C6: when the camera capture, the image fetch, or the primary
fruit-detector call raises, `execute_scan` publishes to neither client
and returns normally (the blanket handler absorbs the exception). -/
theorem early_failure_publishes_nothing (s : Settings) (env : ScanEnv) (w : ℚ)
    (e : Err)
    (h : env.captureResult = Except.error e ∨ env.fetchResult = Except.error e ∨
      env.primaryResult = Except.error e) :
    (executeScan s env w).attempted = [] ∧ (executeScan s env w).raised = none := by
  unfold executeScan
  cases hc : env.captureResult with
  | error e' => exact ⟨rfl, rfl⟩
  | ok u =>
    cases hf : env.fetchResult with
    | error e' => exact ⟨rfl, rfl⟩
    | ok v =>
      cases hp : env.primaryResult with
      | error e' => exact ⟨rfl, rfl⟩
      | ok raw =>
        rcases h with h | h | h
        · rw [hc] at h; exact Except.noConfusion h
        · rw [hf] at h; exact Except.noConfusion h
        · rw [hp] at h; exact Except.noConfusion h

/-- Witness for C6: a failing camera capture publishes nothing and
raises nothing. -/
theorem early_failure_publishes_nothing_witness :
    (executeScan defaultSettings captureFailEnv 120).attempted = [] ∧
    (executeScan defaultSettings captureFailEnv 120).raised = none :=
  early_failure_publishes_nothing defaultSettings captureFailEnv 120
    "camera unreachable" (Or.inl rfl)

/-- Claim C3: when the fallback decision fires and the fallback call
returns, the published result's fruits are computed exactly from the
fallback response with Filters A and B re-applied (even when that
filtered set is empty), and every published fruit stems from a
detection of the fallback response — never a union with the primary
set. -/
theorem fallback_replacement (s : Settings) (env : ScanEnv) (w : ℚ)
    (raw rawFb : List FruitDetection)
    (hc : env.captureResult = Except.ok ()) (hf : env.fetchResult = Except.ok ())
    (hp : env.primaryResult = Except.ok raw)
    (hfb : env.fallbackResult = Except.ok rawFb)
    (hreason : shouldFallback s (applyFilters s env.imageArea raw) raw w ≠ none) :
    (executeScan s env w).result =
      some ⟨w, analyzeFruits env (applyFilters s env.imageArea rawFb)⟩ ∧
    ∀ fs ∈ analyzeFruits env (applyFilters s env.imageArea rawFb),
      ∃ d ∈ rawFb, fs = mkSummary d (summaryDefects env d) := by
  constructor
  · rw [executeScan_reaches_publish s env w raw rawFb hc hf hp hfb]
    cases hsf : shouldFallback s (applyFilters s env.imageArea raw) raw w with
    | none => exact absurd hsf hreason
    | some r => rfl
  · intro fs hfs
    obtain ⟨d, hd, hmap⟩ := List.mem_filterMap.mp hfs
    refine ⟨d, (applyFilters_sublist s env.imageArea rawFb).subset hd, ?_⟩
    unfold analyzeDetection at hmap
    cases hcrop : env.cropResult d with
    | error e' => rw [hcrop] at hmap; exact Option.noConfusion hmap
    | ok u => rw [hcrop] at hmap; exact (Option.some.inj hmap).symm

/-- Witness for C3: at 120 g with an empty primary response the
fallback fires; the published fruits are the filtered fallback set. -/
theorem fallback_replacement_witness :
    (executeScan defaultSettings fallbackEnv 120).result =
      some ⟨120, analyzeFruits fallbackEnv
        (applyFilters defaultSettings fallbackEnv.imageArea [sampleDet])⟩ :=
  (fallback_replacement defaultSettings fallbackEnv 120 [] [sampleDet]
    rfl rfl rfl rfl
    (by norm_num [shouldFallback, applyFilters, filterDetectionsByBboxArea,
      filterDetectionsByClassThreshold, fallbackEnv, defectFailEnv, cropFailEnv,
      defaultSettings, Option.some_ne_none])).1

/-- Claim C7: whatever the outcomes of the two publish calls, the
publish step performs the UI publish and — when
`enable_main_server_publish` is set — the main-server publish; a
failure of either is captured by the pipeline's handler and logged, and
no publish failure is re-raised out of `execute_scan`. -/
theorem publish_isolation (s : Settings) (env : ScanEnv) (w : ℚ)
    (raw rawFb : List FruitDetection) (uiRes mainRes : Except Err Unit)
    (hc : env.captureResult = Except.ok ()) (hf : env.fetchResult = Except.ok ())
    (hp : env.primaryResult = Except.ok raw)
    (hfb : env.fallbackResult = Except.ok rawFb) :
    (executeScan s { env with uiResult := uiRes, mainResult := mainRes } w).attempted =
      publishTargets s ∧
    (executeScan s { env with uiResult := uiRes, mainResult := mainRes } w).raised =
      none ∧
    (∀ e, uiRes = Except.error e →
      ((executeScan s { env with uiResult := uiRes, mainResult := mainRes } w).loggedError).isSome = true) ∧
    (∀ e, s.enable_main_server_publish = true → mainRes = Except.error e →
      ((executeScan s { env with uiResult := uiRes, mainResult := mainRes } w).loggedError).isSome = true) := by
  have key := executeScan_reaches_publish s
    { env with uiResult := uiRes, mainResult := mainRes } w raw rawFb hc hf hp hfb
  rw [key]
  refine ⟨rfl, rfl, ?_, ?_⟩
  · intro e he
    show (publishFirstError s { env with uiResult := uiRes, mainResult := mainRes }).isSome = true
    unfold publishFirstError
    rw [show ({ env with uiResult := uiRes, mainResult := mainRes } : ScanEnv).uiResult = uiRes from rfl, he]
    rfl
  · intro e hen hme
    show (publishFirstError s { env with uiResult := uiRes, mainResult := mainRes }).isSome = true
    unfold publishFirstError
    rw [show ({ env with uiResult := uiRes, mainResult := mainRes } : ScanEnv).uiResult = uiRes from rfl,
      show ({ env with uiResult := uiRes, mainResult := mainRes } : ScanEnv).mainResult = mainRes from rfl,
      hen, hme]
    cases uiRes with
    | error e' => rfl
    | ok u => rfl

/-- Witness for C7: with the UI publish failing and the main publish
succeeding, both destinations are still attempted. -/
theorem publish_isolation_witness :
    (executeScan defaultSettings
      { fallbackEnv with uiResult := Except.error "ui down", mainResult := Except.ok () }
      120).attempted = publishTargets defaultSettings :=
  (publish_isolation defaultSettings fallbackEnv 120 [] [sampleDet]
    (Except.error "ui down") (Except.ok ()) rfl rfl rfl rfl).1
